import Mathlib

/-!
# Verified model of the image-tagging pipeline

A shallow embedding of the two source components of this repository:

* the client-side status poller (`useStatusPolling`: `pollStatus`,
  `fetchWorkflowRes`, `handleError`, `startPolling`, `stopPolling` and the
  teardown cleanup), and
* the serverless boundary (`MyWorkflow.run` and the default `fetch` handler).

JavaScript timers are modelled by natural-number handles: `setInterval`
returns a fresh handle drawn from a counter and adds it to the set of active
timers; `clearInterval` removes a handle from that set.  The module-level
`pollingIntervals.current` object is an association list from instance
identifiers to timer handles.  External HTTP calls are oracles: each tick
receives the outcome (`Except`) of the requests it would issue.
-/

namespace Robin

/-- The status payload parsed from `GET /?instanceId=...`.  `error` models the
JavaScript truthiness of the `data.error` field. -/
structure StatusResponse where
  status : String
  error : Bool
  deriving Repr, DecidableEq

/-- The callback shape handed to `onStatusUpdate`: a field the source leaves
out of the object literal is `none`, like an explicit `undefined`. -/
structure UploadedImage where
  fileName : String
  status : String
  instanceId : String
  aiTags : Option String
  aiAltText : Option String
  deriving Repr, DecidableEq

/-- One HTTP request issued by the poller. -/
inductive Query where
  | status (instanceId : String)
  | alttext (instanceId : String)
  | tags (instanceId : String)
  deriving Repr, DecidableEq

/-- State of the polling hook: the `pollingIntervals.current` table, the set
of timer handles not yet cleared, and the counter producing fresh handles. -/
structure PollerState where
  intervals : List (String × Nat)
  active : List Nat
  next : Nat
  deriving Repr, DecidableEq

namespace PollerState

/-- Lookup of a key in an association list (a JavaScript object read). -/
def lookupKey : List (String × Nat) → String → Option Nat
  | [], _ => none
  | p :: l, instanceId =>
      if p.1 = instanceId then some p.2 else lookupKey l instanceId

/-- `pollingIntervals.current[instanceId]`. -/
def find (s : PollerState) (instanceId : String) : Option Nat :=
  lookupKey s.intervals instanceId

/-- Remove the binding for a key (JavaScript `delete` on an object key). -/
def eraseKey : List (String × Nat) → String → List (String × Nat)
  | [], _ => []
  | p :: l, instanceId =>
      if p.1 = instanceId then l else p :: eraseKey l instanceId

/-- Well-formedness that the JavaScript object and timer API guarantee:
keys are unique, and every stored or active handle is below the counter. -/
structure WF (s : PollerState) : Prop where
  nodupKeys : (s.intervals.map Prod.fst).Nodup
  handlesLt : ∀ p ∈ s.intervals, p.2 < s.next
  activeLt : ∀ h ∈ s.active, h < s.next

end PollerState

open PollerState

/-- `stopPolling(instanceId)`: if the table holds an interval for the
identifier, clear it and delete the binding; otherwise do nothing. -/
def stopPolling (s : PollerState) (instanceId : String) : PollerState :=
  match s.find instanceId with
  | some h =>
      { s with
        intervals := eraseKey s.intervals instanceId
        active := s.active.filter (fun h' => h' ≠ h) }
  | none => s

/-- `startPolling(instanceId, fileName)`: stop any existing poll for the
identifier, then store a fresh interval handle for it.  (The `fileName`
argument only feeds the tick closure, so it does not appear in the state.) -/
def startPolling (s : PollerState) (instanceId : String) : PollerState :=
  { intervals :=
      (instanceId, (stopPolling s instanceId).next) ::
        (stopPolling s instanceId).intervals
    active := (stopPolling s instanceId).next :: (stopPolling s instanceId).active
    next := (stopPolling s instanceId).next + 1 }

/-- The `useEffect` teardown: `clearInterval` on every value of the table
(the bindings themselves are not deleted). -/
def cleanup (s : PollerState) : PollerState :=
  { s with active := s.active.filter (fun h => ¬ ∃ p ∈ s.intervals, p.2 = h) }

/-- `handleError(instanceId, fileName)`: report an `error` status (derived
fields absent) and stop polling. -/
def handleError (s : PollerState) (instanceId fileName : String) :
    PollerState × List UploadedImage :=
  (stopPolling s instanceId,
   [{ fileName := fileName, status := "error", instanceId := instanceId
      aiTags := none, aiAltText := none }])

/-- `fetchWorkflowRes(instanceId, fileName)`: fetch `/alttext`, then `/tags`;
if both succeed report a `complete` callback with both derived fields and stop
polling, otherwise fall into `handleError`.  The outcome of each request the
source would issue is supplied as an oracle; the returned `Query` list records
which requests were actually issued. -/
def fetchWorkflowRes (s : PollerState) (instanceId fileName : String)
    (altRes tagsRes : Except Unit String) :
    PollerState × List UploadedImage × List Query :=
  match altRes with
  | .error _ =>
      let (s', cbs) := handleError s instanceId fileName
      (s', cbs, [Query.alttext instanceId])
  | .ok altText =>
      match tagsRes with
      | .error _ =>
          let (s', cbs) := handleError s instanceId fileName
          (s', cbs, [Query.alttext instanceId, Query.tags instanceId])
      | .ok tags =>
          (stopPolling s instanceId,
           [{ fileName := fileName, status := "complete"
              instanceId := instanceId
              aiTags := some tags, aiAltText := some altText }],
           [Query.alttext instanceId, Query.tags instanceId])

/-- `pollStatus(instanceId, fileName)`: one tick.  The status request's
outcome (transport failure, non-ok response or JSON failure are all the
thrown/`.error` case) and the outcomes of the two potential follow-up
requests are oracles.  Returns the new state, the callbacks delivered in
order, and the requests issued in order. -/
def pollStatus (s : PollerState) (instanceId fileName : String)
    (statusRes : Except Unit StatusResponse)
    (altRes tagsRes : Except Unit String) :
    PollerState × List UploadedImage × List Query :=
  match statusRes with
  | .error _ =>
      let (s', cbs) := handleError s instanceId fileName
      (s', cbs, [Query.status instanceId])
  | .ok data =>
      let verbatim : UploadedImage :=
        { fileName := fileName, status := data.status
          instanceId := instanceId, aiTags := none, aiAltText := none }
      if data.status = "complete" then
        let (s', cbs, qs) := fetchWorkflowRes s instanceId fileName altRes tagsRes
        (stopPolling s' instanceId, verbatim :: cbs, Query.status instanceId :: qs)
      else if data.error then
        let (s', cbs) := handleError s instanceId fileName
        (s', verbatim :: cbs, [Query.status instanceId])
      else
        (s, [verbatim], [Query.status instanceId])

/-- Number of active recurring queries for an identifier: bindings in the
interval table whose handle has not been cleared. -/
def activePollsFor (s : PollerState) (instanceId : String) : Nat :=
  (s.intervals.filter (fun p => p.1 = instanceId ∧ p.2 ∈ s.active)).length

/-! ## The workflow (`MyWorkflow.run`) -/

/-- JSON payload of an approval signal (`ApprovalRequest` in the source). -/
structure ApprovalRequest where
  approved : Bool
  deriving Repr, DecidableEq

/-- `AI_TAGS_CONFIG` from `config.ts`. -/
def AI_TAGS_CONFIG_MODEL : String := "@cf/llava-hf/llava-1.5-7b-hf"

def AI_TAGS_CONFIG_PROMPT : String :=
  "Give me 5 different single word description tags for the image. Return them as a comma separated list with only the tags, no other text."

def AI_TAGS_CONFIG_MAX_TOKENS : Nat := 512

/-- `AI_ALT_TEXT_CONFIG` from `config.ts`. -/
def AI_ALT_TEXT_CONFIG_MODEL : String := "@cf/llava-hf/llava-1.5-7b-hf"

def AI_ALT_TEXT_CONFIG_PROMPT : String :=
  "Give me an alt text description for this image, return this as a single setence with only the alt text description, no other text"

def AI_ALT_TEXT_CONFIG_MAX_TOKENS : Nat := 512

/-- One observable call a workflow run makes against its environment. -/
inductive WfEffect where
  | insertImage (imageKey instanceId : String)
  | waitEvent (type timeout : String)
  | aiRun (model prompt : String) (maxTokens : Nat) (image : List Nat)
  | updateTags (instanceId text : String)
  | updateAltText (instanceId text : String)
  deriving Repr, DecidableEq

/-- The workflow's collaborators: the object store (`workflow_demo_bucket.get`)
and the inference binding (`env.AI.run`), both opaque. -/
structure WorkflowEnv where
  bucket : String → Option (List Nat)
  ai : String → String → Nat → List Nat → String

/-- The relational store's rows touched by this pipeline, keyed by instance
identifier. -/
structure DBState where
  images : List (String × String)
  tags : List (String × String)
  altText : List (String × String)
  deriving Repr, DecidableEq

/-- Optional chaining `payload?.approved` on a possibly-absent payload
(`waitForEvent` delivering no payload models its timeout outcome). -/
def approvedOf (ev : Option ApprovalRequest) : Bool :=
  (ev.map ApprovalRequest.approved).getD false

/-- One `Generate AI ...` step: fetch the stored image (throwing
`Image not found` when absent) and run the model on it. -/
def generateStep (env : WorkflowEnv) (imageKey model prompt : String)
    (maxTokens : Nat) : Except String (String × List Nat) :=
  match env.bucket imageKey with
  | none => .error "Image not found"
  | some image => .ok (env.ai model prompt maxTokens image, image)

/-- `MyWorkflow.run`: insert the image row, wait (5-minute timeout) for the
tag approval, run and persist tag inference only when approved, then the same
for alt text.  The two `waitForEvent` outcomes are parameters: `none` is a
wait that delivered no payload (timeout), `some r` a signal with payload `r`.
Returns the final database and the ordered trace of external calls, or the
error a step threw. -/
def MyWorkflow.run (env : WorkflowEnv) (db : DBState)
    (imageKey instanceId : String)
    (tagEvent altTextEvent : Option ApprovalRequest) :
    Except String (DBState × List WfEffect) :=
  let db0 : DBState := { db with images := (instanceId, imageKey) :: db.images }
  let tr0 : List WfEffect :=
    [WfEffect.insertImage imageKey instanceId,
     WfEffect.waitEvent "approval-for-ai-tagging" "5 minute"]
  let tagStage : Except String (DBState × List WfEffect) :=
    if approvedOf tagEvent then
      match generateStep env imageKey AI_TAGS_CONFIG_MODEL AI_TAGS_CONFIG_PROMPT
          AI_TAGS_CONFIG_MAX_TOKENS with
      | .error e => .error e
      | .ok (aiTags, image) =>
          .ok ({ db0 with tags := (instanceId, aiTags) :: db0.tags },
               tr0 ++
               [WfEffect.aiRun AI_TAGS_CONFIG_MODEL AI_TAGS_CONFIG_PROMPT
                  AI_TAGS_CONFIG_MAX_TOKENS image,
                WfEffect.updateTags instanceId aiTags])
    else .ok (db0, tr0)
  match tagStage with
  | .error e => .error e
  | .ok (db1, tr1) =>
      let tr2 := tr1 ++ [WfEffect.waitEvent "approval-for-ai-alttext" "5 minute"]
      if approvedOf altTextEvent then
        match generateStep env imageKey AI_ALT_TEXT_CONFIG_MODEL
            AI_ALT_TEXT_CONFIG_PROMPT AI_ALT_TEXT_CONFIG_MAX_TOKENS with
        | .error e => .error e
        | .ok (aiAltText, image) =>
            .ok ({ db1 with altText := (instanceId, aiAltText) :: db1.altText },
                 tr2 ++
                 [WfEffect.aiRun AI_ALT_TEXT_CONFIG_MODEL AI_ALT_TEXT_CONFIG_PROMPT
                    AI_ALT_TEXT_CONFIG_MAX_TOKENS image,
                  WfEffect.updateAltText instanceId aiAltText])
      else .ok (db1, tr2)

/-! ## The HTTP boundary (`fetch` in `config.ts`) -/

/-- `ROUTES` from `config.ts`. -/
def ROUTES_TAGS : String := "/tags"

def ROUTES_TAG_APPROVAL : String := "/approval-for-ai-tagging"

def ROUTES_ALTTEXT : String := "/alttext"

def ROUTES_ALTTEXT_APPROVAL : String := "/approval-for-ai-alttext"

/-- Parsed JSON body of an approval request: `none` fields model a missing or
non-string / non-boolean value (so `!instanceId` is `none` or `some ""`, and
`typeof approved !== 'boolean'` is `approved = none`). -/
structure ApprovalBody where
  instanceId : Option String
  approved : Option Bool
  deriving Repr, DecidableEq

/-- An incoming request as the handler inspects it: the method, the URL path,
the `instanceId` query parameter, the `content-type` header, and the outcomes
of reading the body as JSON or as multipart form data (`.error` is a body
whose parse throws; `.ok b` for the form is whether a `File` field `image` is
present). -/
structure Request where
  method : String
  path : String
  instanceId : Option String
  contentType : Option String
  jsonBody : Except Unit ApprovalBody
  formImage : Except Unit Bool
  deriving Repr

/-- One observable call the fetch handler makes against its environment. -/
inductive FetchEffect where
  | dbGetTags (instanceId : String)
  | dbGetAltText (instanceId : String)
  | sendEvent (instanceId type : String) (approved : Bool)
  | bucketPut (key : String)
  | createInstance (key : String)
  | getStatus (instanceId : String)
  deriving Repr, DecidableEq

/-- The handler's collaborators, opaque: the database reads, the workflow
binding (`get` + `sendEvent`, `get` + `status`, `create`), `nanoid()` and the
object store's `put`. -/
structure FetchEnv where
  getImageTags : String → Except Unit String
  getImageAltText : String → Except Unit String
  workflowSend : String → String → Bool → Except Unit Unit
  instanceStatus : String → Except Unit String
  freshKey : String
  bucketPut : String → Except Unit Unit
  createWorkflow : String → Except Unit (String × String)

/-- Modelled from the spec: the success payloads of `ResponseHandler.success`
(`utils/response.ts` is not among the provided sources); one constructor per
route's success shape from the spec's interface table. -/
inductive SuccessBody where
  | tags (instanceId tags : String)
  | altText (instanceId altText : String)
  | approvalOk
  | upload (id details : String)
  | status (s : String)
  deriving Repr, DecidableEq

/-- Modelled from the spec: the responses `ResponseHandler` produces
(`utils/response.ts` is not among the provided sources): success, the four
error shapes with a JSON error body, and the CORS preflight reply. -/
inductive Response where
  | success (body : SuccessBody)
  | badRequest (msg : String)
  | notFound
  | methodNotAllowed
  | serverError (msg : String)
  | corsPreflight
  deriving Repr, DecidableEq

/-- Modelled from the spec: the HTTP status code of each response shape — 400
for missing/invalid params, 404 unrecognized path, 405 wrong method, 500
internal failure, 200-class for success and the empty preflight reply. -/
def statusOf : Response → Nat
  | .success _ => 200
  | .badRequest _ => 400
  | .notFound => 404
  | .methodNotAllowed => 405
  | .serverError _ => 500
  | .corsPreflight => 200

/-- Modelled from the spec: which responses carry a JSON `{error: string}`
body (the four error statuses do; success and preflight do not). -/
def hasErrorBody : Response → Bool
  | .badRequest _ => true
  | .notFound => true
  | .methodNotAllowed => true
  | .serverError _ => true
  | _ => false

/-- JavaScript falsiness of `searchParams.get(...)` (absent or empty). -/
def isFalsyStr (o : Option String) : Bool :=
  o.getD "" = ""

/-- The `/tags` route block: validate `instanceId`, read the tags row, answer
with the success payload or a 500 on a thrown read. -/
def handleTagsRoute (env : FetchEnv) (req : Request) :
    Response × List FetchEffect :=
  match req.instanceId with
  | none => (.badRequest "Missing instanceId parameter", [])
  | some instanceId =>
      if instanceId = "" then (.badRequest "Missing instanceId parameter", [])
      else
        match env.getImageTags instanceId with
        | .ok tags =>
            (.success (.tags instanceId tags), [.dbGetTags instanceId])
        | .error _ =>
            (.serverError "Error fetching tags", [.dbGetTags instanceId])

/-- The `/alttext` route block, same shape as `/tags`. -/
def handleAltTextRoute (env : FetchEnv) (req : Request) :
    Response × List FetchEffect :=
  match req.instanceId with
  | none => (.badRequest "Missing instanceId parameter", [])
  | some instanceId =>
      if instanceId = "" then (.badRequest "Missing instanceId parameter", [])
      else
        match env.getImageAltText instanceId with
        | .ok altText =>
            (.success (.altText instanceId altText), [.dbGetAltText instanceId])
        | .error _ =>
            (.serverError "Error fetching alt text", [.dbGetAltText instanceId])

/-- An approval route block (`/approval-for-ai-tagging` and
`/approval-for-ai-alttext` are verbatim-identical up to the event type):
405 on a non-POST method, parse the JSON body, validate `instanceId` and
`approved`, then send the event to the workflow instance. -/
def handleApproval (env : FetchEnv) (req : Request) (eventType : String) :
    Response × List FetchEffect :=
  if req.method ≠ "POST" then (.methodNotAllowed, [])
  else
    match req.jsonBody with
    | .error _ => (.serverError "Error processing approval", [])
    | .ok body =>
        match body.instanceId, body.approved with
        | some instanceId, some approved =>
            if instanceId = "" then
              (.badRequest "Missing or invalid parameters", [])
            else
              match env.workflowSend instanceId eventType approved with
              | .ok _ =>
                  (.success .approvalOk,
                   [.sendEvent instanceId eventType approved])
              | .error _ => (.serverError "Error processing approval", [])
        | _, _ => (.badRequest "Missing or invalid parameters", [])

/-- The `POST /` upload block: require a multipart content type and an image
`File`, store the image under a fresh key and create a workflow instance. -/
def handleUpload (env : FetchEnv) (req : Request) :
    Response × List FetchEffect :=
  match req.contentType with
  | none =>
      (.badRequest "Invalid content type. Expected multipart/form-data", [])
  | some ct =>
      if ¬ (ct.containsSubstr "multipart/form-data".toSubstring) then
        (.badRequest "Invalid content type. Expected multipart/form-data", [])
      else
        match req.formImage with
        | .error _ => (.serverError "Error processing image upload", [])
        | .ok false => (.badRequest "Missing or invalid image file", [])
        | .ok true =>
            let imageKey := env.freshKey
            match env.bucketPut imageKey with
            | .error _ => (.serverError "Error processing image upload", [])
            | .ok _ =>
                match env.createWorkflow imageKey with
                | .ok idDetails =>
                    (.success (.upload idDetails.1 idDetails.2),
                     [.bucketPut imageKey, .createInstance imageKey])
                | .error _ =>
                    (.serverError "Error processing image upload",
                     [.bucketPut imageKey])

/-- The `GET /` status block: validate `instanceId`, query the instance. -/
def handleStatus (env : FetchEnv) (req : Request) :
    Response × List FetchEffect :=
  match req.instanceId with
  | none => (.badRequest "Missing instanceId parameter", [])
  | some instanceId =>
      if instanceId = "" then (.badRequest "Missing instanceId parameter", [])
      else
        match env.instanceStatus instanceId with
        | .ok s => (.success (.status s), [.getStatus instanceId])
        | .error _ =>
            (.serverError "Error getting workflow status", [.getStatus instanceId])

/-- The default `fetch` handler, block for block in source order — including
the verbatim second copies of the `/tags` and `/approval-for-ai-tagging`
blocks that the source repeats after the upload block. -/
def fetch (env : FetchEnv) (req : Request) : Response × List FetchEffect :=
  if req.method = "OPTIONS" then (.corsPreflight, [])
  else if req.path = ROUTES_TAGS then handleTagsRoute env req
  else if req.path = ROUTES_TAG_APPROVAL then
    handleApproval env req "approval-for-ai-tagging"
  else if req.method = "POST" ∧ req.path = "/" then handleUpload env req
  else if req.path = ROUTES_TAGS then handleTagsRoute env req
  else if req.path = ROUTES_TAG_APPROVAL then
    handleApproval env req "approval-for-ai-tagging"
  else if req.path = ROUTES_ALTTEXT then handleAltTextRoute env req
  else if req.path = ROUTES_ALTTEXT_APPROVAL then
    handleApproval env req "approval-for-ai-alttext"
  else if req.method = "GET" ∧ req.path = "/" then handleStatus env req
  else if req.path.startsWith "/favicon" then (.notFound, [])
  else (.badRequest "Invalid Request", [])

/-- The same handler with the second copy of each duplicated block removed —
the single-logical-route reading the spec takes. -/
def fetchDedup (env : FetchEnv) (req : Request) : Response × List FetchEffect :=
  if req.method = "OPTIONS" then (.corsPreflight, [])
  else if req.path = ROUTES_TAGS then handleTagsRoute env req
  else if req.path = ROUTES_TAG_APPROVAL then
    handleApproval env req "approval-for-ai-tagging"
  else if req.method = "POST" ∧ req.path = "/" then handleUpload env req
  else if req.path = ROUTES_ALTTEXT then handleAltTextRoute env req
  else if req.path = ROUTES_ALTTEXT_APPROVAL then
    handleApproval env req "approval-for-ai-alttext"
  else if req.method = "GET" ∧ req.path = "/" then handleStatus env req
  else if req.path.startsWith "/favicon" then (.notFound, [])
  else (.badRequest "Invalid Request", [])

/-- A concrete boundary environment used by witnesses and counterexamples. -/
def envA : FetchEnv :=
  { getImageTags := fun _ => .ok "cat, orange"
    getImageAltText := fun _ => .ok "an orange cat"
    workflowSend := fun _ _ _ => .ok ()
    instanceStatus := fun _ => .ok "running"
    freshKey := "key1"
    bucketPut := fun _ => .ok ()
    createWorkflow := fun _ => .ok ("wf1", "queued") }

/-! ## Association-list lemmas for the interval table -/

theorem lookupKey_eq_none_iff (l : List (String × Nat)) (instanceId : String) :
    lookupKey l instanceId = none ↔ instanceId ∉ l.map Prod.fst := by
  induction l with
  | nil => simp [lookupKey]
  | cons p l ih =>
      by_cases h : p.1 = instanceId
      · simp [lookupKey, h]
      · rw [List.map_cons]
        simp only [lookupKey, if_neg h, ih, List.mem_cons]
        constructor
        · intro hn hc
          rcases hc with he | hm
          · exact h he.symm
          · exact hn hm
        · exact fun hn hm => hn (Or.inr hm)

theorem eraseKey_sublist (l : List (String × Nat)) (instanceId : String) :
    List.Sublist (eraseKey l instanceId) l := by
  induction l with
  | nil => simp [eraseKey]
  | cons p l ih =>
      by_cases h : p.1 = instanceId
      · simp [eraseKey, h]
      · simpa [eraseKey, h] using ih.cons₂ p

theorem lookupKey_eq_some_mem (l : List (String × Nat)) (instanceId : String)
    (hdl : Nat) (he : lookupKey l instanceId = some hdl) :
    (instanceId, hdl) ∈ l := by
  induction l with
  | nil => simp [lookupKey] at he
  | cons p l ih =>
      obtain ⟨a, b⟩ := p
      by_cases hp : a = instanceId
      · subst hp
        simp [lookupKey] at he
        subst he
        exact List.mem_cons_self _ _
      · simp only [lookupKey, if_neg hp] at he
        exact List.mem_cons_of_mem _ (ih he)

theorem not_mem_active_stopPolling (s : PollerState) (instanceId : String)
    (hdl : Nat) (hfind : s.find instanceId = some hdl) :
    hdl ∉ (stopPolling s instanceId).active := by
  unfold stopPolling
  rw [hfind]
  simp

theorem not_mem_keys_eraseKey (l : List (String × Nat)) (instanceId : String)
    (h : (l.map Prod.fst).Nodup) :
    instanceId ∉ (eraseKey l instanceId).map Prod.fst := by
  induction l with
  | nil => simp [eraseKey]
  | cons p l ih =>
      rw [List.map_cons] at h
      rcases List.nodup_cons.mp h with ⟨hp, hl⟩
      by_cases hpk : p.1 = instanceId
      · simp only [eraseKey, if_pos hpk]
        rw [hpk] at hp
        exact hp
      · simp only [eraseKey, if_neg hpk, List.map_cons]
        intro hm
        rcases List.mem_cons.mp hm with he | hm'
        · exact hpk he.symm
        · exact ih hl hm'

theorem stopPolling_next (s : PollerState) (instanceId : String) :
    (stopPolling s instanceId).next = s.next := by
  unfold stopPolling
  split <;> rfl

theorem stopPolling_of_find_none (s : PollerState) (instanceId : String)
    (h : s.find instanceId = none) : stopPolling s instanceId = s := by
  unfold stopPolling
  split
  · simp_all
  · rfl

theorem intervals_stopPolling (s : PollerState) (instanceId : String) :
    (stopPolling s instanceId).intervals = s.intervals ∨
      (stopPolling s instanceId).intervals = eraseKey s.intervals instanceId := by
  unfold stopPolling
  split
  · exact Or.inr rfl
  · exact Or.inl rfl

theorem find_stopPolling_self (s : PollerState) (instanceId : String)
    (h : (s.intervals.map Prod.fst).Nodup) :
    (stopPolling s instanceId).find instanceId = none := by
  unfold stopPolling
  split
  · exact (lookupKey_eq_none_iff _ _).mpr (not_mem_keys_eraseKey _ _ h)
  · assumption

theorem WF_stopPolling (s : PollerState) (instanceId : String) (h : s.WF) :
    (stopPolling s instanceId).WF := by
  unfold stopPolling
  split
  · exact
      { nodupKeys :=
          h.nodupKeys.sublist ((eraseKey_sublist _ _).map Prod.fst)
        handlesLt := fun p hp =>
          h.handlesLt p ((eraseKey_sublist _ _).subset hp)
        activeLt := fun x hx =>
          h.activeLt x (List.mem_of_mem_filter hx) }
  · exact h

theorem WF_startPolling (s : PollerState) (instanceId : String) (h : s.WF) :
    (startPolling s instanceId).WF := by
  have h' := WF_stopPolling s instanceId h
  have hkeys :
      instanceId ∉ ((stopPolling s instanceId).intervals.map Prod.fst) :=
    (lookupKey_eq_none_iff _ _).mp (find_stopPolling_self s instanceId h.nodupKeys)
  refine
    { nodupKeys := ?_
      handlesLt := ?_
      activeLt := ?_ }
  · show ((((instanceId, (stopPolling s instanceId).next) ::
      (stopPolling s instanceId).intervals)).map Prod.fst).Nodup
    rw [List.map_cons]
    exact List.nodup_cons.mpr ⟨hkeys, h'.nodupKeys⟩
  · intro p hp
    rcases List.mem_cons.mp hp with rfl | hp'
    · exact Nat.lt_succ_self _
    · exact Nat.lt_succ_of_lt (h'.handlesLt p hp')
  · intro x hx
    rcases List.mem_cons.mp hx with rfl | hx'
    · exact Nat.lt_succ_self _
    · exact Nat.lt_succ_of_lt (h'.activeLt x hx')

theorem activePollsFor_eq_zero (s : PollerState) (instanceId : String)
    (h : instanceId ∉ s.intervals.map Prod.fst) :
    activePollsFor s instanceId = 0 := by
  unfold activePollsFor
  rw [List.length_eq_zero, List.filter_eq_nil_iff]
  intro p hp
  simp only [decide_eq_true_eq, not_and]
  intro hk
  have hm := List.mem_map_of_mem Prod.fst hp
  rw [hk] at hm
  exact absurd hm h

theorem activePollsFor_startPolling (s : PollerState) (instanceId : String)
    (h : s.WF) : activePollsFor (startPolling s instanceId) instanceId = 1 := by
  have hkeys :
      instanceId ∉ ((stopPolling s instanceId).intervals.map Prod.fst) :=
    (lookupKey_eq_none_iff _ _).mp (find_stopPolling_self s instanceId h.nodupKeys)
  have hne : ∀ p ∈ (stopPolling s instanceId).intervals, ¬ p.1 = instanceId := by
    intro p hp he
    have hm := List.mem_map_of_mem Prod.fst hp
    rw [he] at hm
    exact hkeys hm
  unfold activePollsFor startPolling
  rw [List.filter_cons]
  simp
  intro a b hm ha
  exact absurd ha (hne (a, b) hm)

/-! ## Claims about the status poller -/

/-- C7: `stopPolling` is idempotent: called on an identifier with no active
poll it leaves the poller state unchanged (and raises no error), and applying
it twice equals applying it once. -/
theorem c7_stopPolling_idempotent (s : PollerState) (instanceId : String)
    (h : s.WF) :
    (s.find instanceId = none → stopPolling s instanceId = s) ∧
    stopPolling (stopPolling s instanceId) instanceId =
      stopPolling s instanceId := by
  refine ⟨fun hn => stopPolling_of_find_none s instanceId hn, ?_⟩
  exact stopPolling_of_find_none _ _
    (find_stopPolling_self s instanceId h.nodupKeys)

/-- Witness for C7 at a concrete state that is not polling "b". -/
theorem c7_stopPolling_idempotent_witness :
    (PollerState.find ⟨[("a", 0)], [0], 1⟩ "b" = none →
      stopPolling ⟨[("a", 0)], [0], 1⟩ "b" = ⟨[("a", 0)], [0], 1⟩) ∧
    stopPolling (stopPolling ⟨[("a", 0)], [0], 1⟩ "b") "b" =
      stopPolling ⟨[("a", 0)], [0], 1⟩ "b" :=
  c7_stopPolling_idempotent ⟨[("a", 0)], [0], 1⟩ "b"
    ⟨by decide, by decide, by decide⟩

/-- C8: the teardown cleanup clears every stored interval: after `cleanup`
runs, no entry of the interval table keeps an active (uncancelled) timer,
however many identifiers are in flight. -/
theorem c8_cleanup_cancels_all (s : PollerState) (p : String × Nat)
    (hp : p ∈ (cleanup s).intervals) : p.2 ∉ (cleanup s).active := by
  intro hx
  have hpred := List.of_mem_filter hx
  simp only [decide_eq_true_eq] at hpred
  exact hpred ⟨p, hp, rfl⟩

/-- Witness for C8 at a concrete two-identifier state. -/
theorem c8_cleanup_cancels_all_witness :
    (("a", 0) : String × Nat).2 ∉
      (cleanup ⟨[("a", 0), ("b", 1)], [0, 1], 2⟩).active :=
  c8_cleanup_cancels_all ⟨[("a", 0), ("b", 1)], [0, 1], 2⟩ ("a", 0) (by decide)

/-- C5: at most one active poll per identifier: one `startPolling` leaves
exactly one active recurring query for the identifier, a second immediate
`startPolling` still leaves exactly one, and the handle that was registered
before the call is no longer active afterwards. -/
theorem c5_at_most_one_poll (s : PollerState) (instanceId : String)
    (h : s.WF) :
    activePollsFor (startPolling s instanceId) instanceId = 1 ∧
    activePollsFor (startPolling (startPolling s instanceId) instanceId)
      instanceId = 1 ∧
    (∀ hdl, s.find instanceId = some hdl →
      hdl ∉ (startPolling s instanceId).active) := by
  refine ⟨activePollsFor_startPolling s instanceId h,
    activePollsFor_startPolling _ _ (WF_startPolling s instanceId h), ?_⟩
  intro hdl hfind hmem
  have hentry : (instanceId, hdl) ∈ s.intervals :=
    lookupKey_eq_some_mem _ _ _ hfind
  have hlt : hdl < s.next := h.handlesLt _ hentry
  rcases List.mem_cons.mp hmem with he | hmem'
  · rw [stopPolling_next] at he
    exact absurd he (Nat.ne_of_lt hlt)
  · exact not_mem_active_stopPolling s instanceId hdl hfind hmem'

/-- Witness for C5 at a concrete state already polling "img" on handle 0. -/
theorem c5_at_most_one_poll_witness :
    activePollsFor (startPolling ⟨[("img", 0)], [0], 1⟩ "img") "img" = 1 ∧
    activePollsFor
      (startPolling (startPolling ⟨[("img", 0)], [0], 1⟩ "img") "img")
      "img" = 1 ∧
    (∀ hdl, PollerState.find ⟨[("img", 0)], [0], 1⟩ "img" = some hdl →
      hdl ∉ (startPolling ⟨[("img", 0)], [0], 1⟩ "img").active) :=
  c5_at_most_one_poll ⟨[("img", 0)], [0], 1⟩ "img"
    ⟨by decide, by decide, by decide⟩

/-- C4: a tick whose status query fails reports `error` via the callback
exactly once (the tick's only callback) and terminates polling for the
identifier: afterwards no interval binding and no active poll remain for it,
so no later tick retries the failure. -/
theorem c4_failed_tick_terminal (s : PollerState)
    (instanceId fileName : String) (e : Unit)
    (altRes tagsRes : Except Unit String) (h : s.WF) :
    pollStatus s instanceId fileName (.error e) altRes tagsRes =
      (stopPolling s instanceId,
       [{ fileName := fileName, status := "error", instanceId := instanceId
          aiTags := none, aiAltText := none }],
       [Query.status instanceId]) ∧
    (stopPolling s instanceId).find instanceId = none ∧
    activePollsFor (stopPolling s instanceId) instanceId = 0 := by
  refine ⟨rfl, find_stopPolling_self s instanceId h.nodupKeys, ?_⟩
  exact activePollsFor_eq_zero _ _
    ((lookupKey_eq_none_iff _ _).mp
      (find_stopPolling_self s instanceId h.nodupKeys))

/-- Witness for C4 at a concrete state polling "i". -/
theorem c4_failed_tick_terminal_witness :
    pollStatus ⟨[("i", 0)], [0], 1⟩ "i" "f" (.error ()) (.ok "a") (.ok "t") =
      (stopPolling ⟨[("i", 0)], [0], 1⟩ "i",
       [{ fileName := "f", status := "error", instanceId := "i"
          aiTags := none, aiAltText := none }],
       [Query.status "i"]) ∧
    (stopPolling (⟨[("i", 0)], [0], 1⟩ : PollerState) "i").find "i" = none ∧
    activePollsFor (stopPolling ⟨[("i", 0)], [0], 1⟩ "i") "i" = 0 :=
  c4_failed_tick_terminal ⟨[("i", 0)], [0], 1⟩ "i" "f" () (.ok "a") (.ok "t")
    ⟨by decide, by decide, by decide⟩

/-- C1 counterexample: on a tick whose status query returns `complete` and
whose two follow-up queries succeed, the source delivers TWO `complete`
callbacks, and the first carries neither derived field — so a `complete`
callback with both derived fields absent is delivered, and the `complete`
report is not a single callback. -/
theorem c1_counterexample :
    (pollStatus ⟨[("img", 0)], [0], 1⟩ "img" "cat.png"
        (.ok ⟨"complete", false⟩) (.ok "an orange cat") (.ok "cat, orange")).2.1 =
      [{ fileName := "cat.png", status := "complete", instanceId := "img"
         aiTags := none, aiAltText := none },
       { fileName := "cat.png", status := "complete", instanceId := "img"
         aiTags := some "cat, orange", aiAltText := some "an orange cat" }] ∧
    ((pollStatus ⟨[("img", 0)], [0], 1⟩ "img" "cat.png"
        (.ok ⟨"complete", false⟩) (.ok "an orange cat") (.ok "cat, orange")).2.1.countP
      (fun cb => cb.status = "complete")) = 2 := by
  exact ⟨rfl, rfl⟩

/-- C1 (amended): on a tick whose status query succeeds with status
`complete`, the poller first reports the observed status verbatim — a
`complete` callback with both derived fields absent — then issues the two
follow-up queries (alt-text first, then tags), and on success of both reports
a second `complete` callback carrying both derived fields together, after
which no poll remains for the identifier; and in every tick's output a
callback carries either both derived fields or neither, never exactly one. -/
theorem c1_amended (s : PollerState) (instanceId fileName : String)
    (e : Bool) (altText tags : String) (h : s.WF) :
    pollStatus s instanceId fileName (.ok ⟨"complete", e⟩)
        (.ok altText) (.ok tags) =
      (stopPolling (stopPolling s instanceId) instanceId,
       [{ fileName := fileName, status := "complete", instanceId := instanceId
          aiTags := none, aiAltText := none },
        { fileName := fileName, status := "complete", instanceId := instanceId
          aiTags := some tags, aiAltText := some altText }],
       [Query.status instanceId, Query.alttext instanceId,
        Query.tags instanceId]) ∧
    activePollsFor (stopPolling (stopPolling s instanceId) instanceId)
      instanceId = 0 ∧
    (∀ statusRes altRes tagsRes,
      ∀ cb ∈ (pollStatus s instanceId fileName statusRes altRes tagsRes).2.1,
        (cb.aiTags.isSome ↔ cb.aiAltText.isSome)) := by
  have h1 : (stopPolling s instanceId).find instanceId = none :=
    find_stopPolling_self s instanceId h.nodupKeys
  have h2 : stopPolling (stopPolling s instanceId) instanceId =
      stopPolling s instanceId :=
    stopPolling_of_find_none _ _ h1
  refine ⟨rfl, ?_, ?_⟩
  · rw [h2]
    exact activePollsFor_eq_zero _ _ ((lookupKey_eq_none_iff _ _).mp h1)
  · intro statusRes altRes tagsRes cb hcb
    rcases statusRes with e' | data
    · simp [pollStatus, handleError] at hcb
      simp [hcb]
    · by_cases hc : data.status = "complete"
      · rcases altRes with e' | alt
        · simp [pollStatus, fetchWorkflowRes, handleError, hc] at hcb
          rcases hcb with rfl | rfl <;> simp
        · rcases tagsRes with e' | tg
          · simp [pollStatus, fetchWorkflowRes, handleError, hc] at hcb
            rcases hcb with rfl | rfl <;> simp
          · simp [pollStatus, fetchWorkflowRes, hc] at hcb
            rcases hcb with rfl | rfl <;> simp
      · cases he : data.error with
        | true =>
            simp [pollStatus, handleError, hc, he] at hcb
            rcases hcb with rfl | rfl <;> simp
        | false =>
            simp [pollStatus, hc, he] at hcb
            simp [hcb]

/-- Witness for the amended C1 at a concrete state polling "img". -/
theorem c1_amended_witness :
    pollStatus ⟨[("img", 0)], [0], 1⟩ "img" "cat.png"
        (.ok ⟨"complete", false⟩) (.ok "an orange cat") (.ok "cat, orange") =
      (stopPolling (stopPolling ⟨[("img", 0)], [0], 1⟩ "img") "img",
       [{ fileName := "cat.png", status := "complete", instanceId := "img"
          aiTags := none, aiAltText := none },
        { fileName := "cat.png", status := "complete", instanceId := "img"
          aiTags := some "cat, orange", aiAltText := some "an orange cat" }],
       [Query.status "img", Query.alttext "img", Query.tags "img"]) ∧
    activePollsFor (stopPolling (stopPolling ⟨[("img", 0)], [0], 1⟩ "img") "img")
      "img" = 0 ∧
    (∀ statusRes altRes tagsRes,
      ∀ cb ∈ (pollStatus ⟨[("img", 0)], [0], 1⟩ "img" "cat.png"
          statusRes altRes tagsRes).2.1,
        (cb.aiTags.isSome ↔ cb.aiAltText.isSome)) :=
  c1_amended ⟨[("img", 0)], [0], 1⟩ "img" "cat.png" false
    "an orange cat" "cat, orange" ⟨by decide, by decide, by decide⟩

/-- C6 counterexample: a tick whose status query succeeds with a payload
carrying an explicit error indicator AND status `complete` takes the
completion branch: no `error` status is reported on that tick, although the
payload's error indicator is set. -/
theorem c6_counterexample :
    ((pollStatus ⟨[("img", 0)], [0], 1⟩ "img" "f"
        (.ok ⟨"complete", true⟩) (.ok "alt") (.ok "tags")).2.1.all
      (fun cb => cb.status ≠ "error")) = true ∧
    (pollStatus ⟨[("img", 0)], [0], 1⟩ "img" "f"
        (.ok ⟨"complete", true⟩) (.ok "alt") (.ok "tags")).2.1 ≠ [] := by
  exact ⟨rfl, by decide⟩

/-- C6 (amended): on a tick whose status query succeeds with a payload whose
status is NOT `complete` and whose error indicator is truthy, the poller
reports the observed status verbatim, then an `error` callback, and stops
polling for the identifier — independent of the HTTP status, which the
query's success already fixed. -/
theorem c6_amended (s : PollerState) (instanceId fileName : String)
    (data : StatusResponse) (altRes tagsRes : Except Unit String)
    (hs : data.status ≠ "complete") (he : data.error = true) (h : s.WF) :
    pollStatus s instanceId fileName (.ok data) altRes tagsRes =
      (stopPolling s instanceId,
       [{ fileName := fileName, status := data.status, instanceId := instanceId
          aiTags := none, aiAltText := none },
        { fileName := fileName, status := "error", instanceId := instanceId
          aiTags := none, aiAltText := none }],
       [Query.status instanceId]) ∧
    activePollsFor (stopPolling s instanceId) instanceId = 0 := by
  constructor
  · simp [pollStatus, handleError, hs, he]
  · exact activePollsFor_eq_zero _ _
      ((lookupKey_eq_none_iff _ _).mp
        (find_stopPolling_self s instanceId h.nodupKeys))

/-! ## Claims about the workflow -/

theorem tags_prompt_ne_alt_prompt :
    AI_TAGS_CONFIG_PROMPT ≠ AI_ALT_TEXT_CONFIG_PROMPT := by decide

/-- C2: a gate whose approval signal delivers no payload (the timeout
outcome of the 5-minute wait) or arrives with approved=false skips its
inference stage entirely: the completed run's trace holds no inference call
with that stage's prompt and no database write for that field, the run still
reaches the following stage, and the stage's derived field is unchanged —
hence still unset — at completion; with both gates denied the run completes
with only the insert and the two waits. -/
theorem c2_denied_gate_skips_stage (env : WorkflowEnv) (db : DBState)
    (imageKey instanceId : String)
    (tagEvent altTextEvent : Option ApprovalRequest) :
    (approvedOf tagEvent = false →
      ∀ db' tr,
        MyWorkflow.run env db imageKey instanceId tagEvent altTextEvent =
          .ok (db', tr) →
        db'.tags = db.tags ∧
        (∀ t, WfEffect.updateTags instanceId t ∉ tr) ∧
        (∀ img, WfEffect.aiRun AI_TAGS_CONFIG_MODEL AI_TAGS_CONFIG_PROMPT
          AI_TAGS_CONFIG_MAX_TOKENS img ∉ tr) ∧
        WfEffect.waitEvent "approval-for-ai-alttext" "5 minute" ∈ tr) ∧
    (approvedOf altTextEvent = false →
      ∀ db' tr,
        MyWorkflow.run env db imageKey instanceId tagEvent altTextEvent =
          .ok (db', tr) →
        db'.altText = db.altText ∧
        (∀ t, WfEffect.updateAltText instanceId t ∉ tr) ∧
        (∀ img, WfEffect.aiRun AI_ALT_TEXT_CONFIG_MODEL AI_ALT_TEXT_CONFIG_PROMPT
          AI_ALT_TEXT_CONFIG_MAX_TOKENS img ∉ tr)) ∧
    (approvedOf tagEvent = false → approvedOf altTextEvent = false →
      MyWorkflow.run env db imageKey instanceId tagEvent altTextEvent =
        .ok ({ db with images := (instanceId, imageKey) :: db.images },
             [WfEffect.insertImage imageKey instanceId,
              WfEffect.waitEvent "approval-for-ai-tagging" "5 minute",
              WfEffect.waitEvent "approval-for-ai-alttext" "5 minute"])) := by
  refine ⟨?_, ?_, ?_⟩
  · intro h1 db' tr hrun
    cases h2 : approvedOf altTextEvent with
    | false =>
        simp [MyWorkflow.run, h1, h2] at hrun
        obtain ⟨hdb, htr⟩ := hrun
        subst hdb
        subst htr
        refine ⟨rfl, ?_, ?_, ?_⟩ <;> simp
    | true =>
        rcases hg : generateStep env imageKey AI_ALT_TEXT_CONFIG_MODEL
            AI_ALT_TEXT_CONFIG_PROMPT AI_ALT_TEXT_CONFIG_MAX_TOKENS with e | pr
        · simp [MyWorkflow.run, h1, h2, hg] at hrun
        · simp [MyWorkflow.run, h1, h2, hg] at hrun
          obtain ⟨hdb, htr⟩ := hrun
          subst hdb
          subst htr
          refine ⟨rfl, ?_, ?_, ?_⟩ <;>
            simp [tags_prompt_ne_alt_prompt]
  · intro h2 db' tr hrun
    cases h1 : approvedOf tagEvent with
    | false =>
        simp [MyWorkflow.run, h1, h2] at hrun
        obtain ⟨hdb, htr⟩ := hrun
        subst hdb
        subst htr
        refine ⟨rfl, ?_, ?_⟩ <;> simp
    | true =>
        rcases hg : generateStep env imageKey AI_TAGS_CONFIG_MODEL
            AI_TAGS_CONFIG_PROMPT AI_TAGS_CONFIG_MAX_TOKENS with e | pr
        · simp [MyWorkflow.run, h1, h2, hg] at hrun
        · simp [MyWorkflow.run, h1, h2, hg] at hrun
          obtain ⟨hdb, htr⟩ := hrun
          subst hdb
          subst htr
          refine ⟨rfl, by simp, ?_⟩
          simp
          intro img hm hp
          exact absurd hp.symm tags_prompt_ne_alt_prompt
  · intro h1 h2
    simp [MyWorkflow.run, h1, h2]

/-- Witness for C2: both gates denied (tag wait times out with no payload,
alt-text signal arrives with approved=false) on a concrete environment. -/
theorem c2_denied_gate_skips_stage_witness :
    approvedOf none = false ∧
    approvedOf (some ⟨false⟩) = false ∧
    MyWorkflow.run ⟨fun _ => some [7], fun _ _ _ _ => "desc"⟩ ⟨[], [], []⟩
        "k" "i" none (some ⟨false⟩) =
      .ok (⟨[("i", "k")], [], []⟩,
           [WfEffect.insertImage "k" "i",
            WfEffect.waitEvent "approval-for-ai-tagging" "5 minute",
            WfEffect.waitEvent "approval-for-ai-alttext" "5 minute"]) :=
  ⟨rfl, rfl,
    (c2_denied_gate_skips_stage ⟨fun _ => some [7], fun _ _ _ _ => "desc"⟩
      ⟨[], [], []⟩ "k" "i" none (some ⟨false⟩)).2.2 rfl rfl⟩

/-- Witness for the amended C6 at a concrete errored payload. -/
theorem c6_amended_witness :
    pollStatus ⟨[("img", 0)], [0], 1⟩ "img" "f"
        (.ok ⟨"errored", true⟩) (.ok "alt") (.ok "tags") =
      (stopPolling ⟨[("img", 0)], [0], 1⟩ "img",
       [{ fileName := "f", status := "errored", instanceId := "img"
          aiTags := none, aiAltText := none },
        { fileName := "f", status := "error", instanceId := "img"
          aiTags := none, aiAltText := none }],
       [Query.status "img"]) ∧
    activePollsFor (stopPolling ⟨[("img", 0)], [0], 1⟩ "img") "img" = 0 :=
  c6_amended ⟨[("img", 0)], [0], 1⟩ "img" "f" ⟨"errored", true⟩
    (.ok "alt") (.ok "tags") (by decide) rfl ⟨by decide, by decide, by decide⟩

/-! ## Claims about the HTTP boundary -/

/-- C9: the handler with the verbatim-duplicated `/tags` and
`/approval-for-ai-tagging` blocks is observably equivalent to the handler
with the second copy of each block removed: for every environment and every
request, both produce the same response and the same external effects (the
duplicated blocks sit strictly later in the first-match chain than their
identical first copies, so they are unreachable). -/
theorem c9_duplicate_blocks_equivalent (env : FetchEnv) (req : Request) :
    fetch env req = fetchDedup env req := by
  unfold fetch fetchDedup
  split_ifs <;> rfl

/-- C3 counterexample: a GET to the unrecognized path "/nope" is answered
with HTTP 400 (the handler's fallthrough is the bad-request response), not
404. -/
theorem c3_counterexample :
    statusOf (fetch envA
      ⟨"GET", "/nope", none, none, .error (), .error ()⟩).1 = 400 ∧
    statusOf (fetch envA
      ⟨"GET", "/nope", none, none, .error (), .error ()⟩).1 ≠ 404 := by
  decide

/-- C3 (amended): a non-preflight request whose path matches none of the
recognized routes is answered with status 400 and the JSON error body
`Invalid Request` — except paths starting with "/favicon", which get 404 —
so 400 is not reserved for missing/invalid parameters. -/
theorem c3_amended (env : FetchEnv) (req : Request)
    (hm : req.method ≠ "OPTIONS")
    (hp : req.path ∉ (["/", "/tags", "/approval-for-ai-tagging", "/alttext",
      "/approval-for-ai-alttext"] : List String)) :
    (¬ req.path.startsWith "/favicon" →
      fetch env req = (.badRequest "Invalid Request", []) ∧
      statusOf (fetch env req).1 = 400 ∧
      hasErrorBody (fetch env req).1 = true) ∧
    (req.path.startsWith "/favicon" →
      fetch env req = (.notFound, []) ∧
      statusOf (fetch env req).1 = 404) := by
  simp only [List.mem_cons, List.not_mem_nil, or_false, not_or] at hp
  obtain ⟨hroot, htags, htagap, halt, haltap⟩ := hp
  constructor
  · intro hfav
    have hf : fetch env req = (.badRequest "Invalid Request", []) := by
      simp [fetch, ROUTES_TAGS, ROUTES_TAG_APPROVAL, ROUTES_ALTTEXT,
        ROUTES_ALTTEXT_APPROVAL, hm, htags, htagap, halt, haltap, hroot, hfav]
    rw [hf]
    exact ⟨rfl, rfl, rfl⟩
  · intro hfav
    have hf : fetch env req = (.notFound, []) := by
      simp [fetch, ROUTES_TAGS, ROUTES_TAG_APPROVAL, ROUTES_ALTTEXT,
        ROUTES_ALTTEXT_APPROVAL, hm, htags, htagap, halt, haltap, hroot, hfav]
    rw [hf]
    exact ⟨rfl, rfl⟩

/-- Witness for the amended C3 at the concrete unrecognized path "/nope". -/
theorem c3_amended_witness :
    (("/nope" : String) ∉ (["/", "/tags", "/approval-for-ai-tagging",
      "/alttext", "/approval-for-ai-alttext"] : List String)) ∧
    fetch envA ⟨"GET", "/nope", none, none, .error (), .error ()⟩ =
      (.badRequest "Invalid Request", []) :=
  ⟨by decide,
   ((c3_amended envA ⟨"GET", "/nope", none, none, .error (), .error ()⟩
      (by decide) (by decide)).1 (by decide)).1⟩

theorem handleTagsRoute_fst_ne_mna (env : FetchEnv) (req : Request) :
    (handleTagsRoute env req).1 ≠ Response.methodNotAllowed := by
  rcases hio : req.instanceId with _ | i
  · simp [handleTagsRoute, hio]
  · rcases hg : env.getImageTags i with e | t <;>
      by_cases hi : i = "" <;>
        simp [handleTagsRoute, hio, hg, hi]

theorem handleAltTextRoute_fst_ne_mna (env : FetchEnv) (req : Request) :
    (handleAltTextRoute env req).1 ≠ Response.methodNotAllowed := by
  rcases hio : req.instanceId with _ | i
  · simp [handleAltTextRoute, hio]
  · rcases hg : env.getImageAltText i with e | t <;>
      by_cases hi : i = "" <;>
        simp [handleAltTextRoute, hio, hg, hi]

theorem handleStatus_fst_ne_mna (env : FetchEnv) (req : Request) :
    (handleStatus env req).1 ≠ Response.methodNotAllowed := by
  rcases hio : req.instanceId with _ | i
  · simp [handleStatus, hio]
  · rcases hg : env.instanceStatus i with e | t <;>
      by_cases hi : i = "" <;>
        simp [handleStatus, hio, hg, hi]

theorem handleUpload_fst_ne_mna (env : FetchEnv) (req : Request) :
    (handleUpload env req).1 ≠ Response.methodNotAllowed := by
  rcases hct : req.contentType with _ | ct
  · simp [handleUpload, hct]
  · by_cases hmul : (ct.containsSubstr "multipart/form-data".toSubstring)
    · rcases hfi : req.formImage with e | b
      · simp [handleUpload, hct, hmul, hfi]
      · cases b
        · simp [handleUpload, hct, hmul, hfi]
        · rcases hbp : env.bucketPut env.freshKey with e | u
          · simp [handleUpload, hct, hmul, hfi, hbp]
          · rcases hcw : env.createWorkflow env.freshKey with e | pr <;>
              simp [handleUpload, hct, hmul, hfi, hbp, hcw]
    · simp [handleUpload, hct, hmul]

/-- C10 counterexample: an OPTIONS request to `/tags` carrying an
`instanceId` is intercepted by the CORS-preflight branch before the `/tags`
block: no lookup is performed and no success payload is returned, so the
`/tags` lookup is not served for literally every method. -/
theorem c10_counterexample :
    fetch envA ⟨"OPTIONS", "/tags", some "x", none, .error (), .error ()⟩ =
      (.corsPreflight, []) ∧
    (fetch envA
        ⟨"OPTIONS", "/tags", some "x", none, .error (), .error ()⟩).1 ≠
      .success (.tags "x" "cat, orange") := by
  decide

/-- C10 (amended): for every non-OPTIONS method (an OPTIONS request is
answered by the CORS preflight first), a request to `/tags` or `/alttext`
carrying a non-empty `instanceId` performs the lookup and returns its result:
the response is determined by the lookup alone, independent of the method —
in particular a POST to `/tags` is served and never answered 405 — and a 405
response arises only on the two approval routes. -/
theorem c10_amended (env : FetchEnv) (req : Request) (i : String)
    (hm : req.method ≠ "OPTIONS") :
    (req.path = "/tags" → req.instanceId = some i → i ≠ "" →
      fetch env req =
        (match env.getImageTags i with
         | .ok t => (Response.success (.tags i t), [FetchEffect.dbGetTags i])
         | .error _ =>
            (Response.serverError "Error fetching tags",
             [FetchEffect.dbGetTags i]))) ∧
    (req.path = "/alttext" → req.instanceId = some i → i ≠ "" →
      fetch env req =
        (match env.getImageAltText i with
         | .ok t =>
            (Response.success (.altText i t), [FetchEffect.dbGetAltText i])
         | .error _ =>
            (Response.serverError "Error fetching alt text",
             [FetchEffect.dbGetAltText i]))) ∧
    ((fetch env req).1 = Response.methodNotAllowed →
      req.path = "/approval-for-ai-tagging" ∨
        req.path = "/approval-for-ai-alttext") := by
  refine ⟨?_, ?_, ?_⟩
  · intro hp hi hne
    rcases hg : env.getImageTags i with e | t <;>
      simp [fetch, handleTagsRoute, ROUTES_TAGS, ROUTES_TAG_APPROVAL,
        ROUTES_ALTTEXT, ROUTES_ALTTEXT_APPROVAL, hm, hp, hi, hne, hg]
  · intro hp hi hne
    rcases hg : env.getImageAltText i with e | t <;>
      simp [fetch, handleAltTextRoute, ROUTES_TAGS, ROUTES_TAG_APPROVAL,
        ROUTES_ALTTEXT, ROUTES_ALTTEXT_APPROVAL, hm, hp, hi, hne, hg]
  · intro h
    unfold fetch at h
    split_ifs at h with hOpt hT hTA hUp hAl hAA hSt hFav
    · exact absurd h (handleTagsRoute_fst_ne_mna env req)
    · exact Or.inl hTA
    · exact absurd h (handleUpload_fst_ne_mna env req)
    · exact absurd h (handleAltTextRoute_fst_ne_mna env req)
    · exact Or.inr hAA
    · exact absurd h (handleStatus_fst_ne_mna env req)

/-- Witness for the amended C10: a POST to `/tags` is served the lookup's
success payload. -/
theorem c10_amended_witness :
    ("POST" : String) ≠ "OPTIONS" ∧
    fetch envA ⟨"POST", "/tags", some "x", none, .error (), .error ()⟩ =
      (Response.success (.tags "x" "cat, orange"),
       [FetchEffect.dbGetTags "x"]) :=
  ⟨by decide,
   (c10_amended envA ⟨"POST", "/tags", some "x", none, .error (), .error ()⟩
      "x" (by decide)).1 rfl rfl (by decide)⟩

end Robin
